import Mathlib

/-!
# examples/dynamic-list-watch/main.go

A shallow embedding of the dynamic list/watch example.  The program is a
composition of calls into external libraries (clientcmd, rest, dynamic,
dynamicinformer, schema, cache, klog, os/signal).  The answers of those
libraries are collected in an environment `Env`; every call the program makes
is recorded, in program order, in the trace of an `Exec`, and the way a
function ends (return, `os.Exit`, run-time panic, death by a signal, blocking
forever) is its `Outcome`.
-/

namespace DynamicListWatch

/-! ## External data -/

/-- A Go `error` value; only its message (`err.Error()`) is observable. -/
structure Error where
  msg : String
deriving DecidableEq, Repr

/-- The target of a `*rest.Config`, identified by its host. -/
structure Config where
  host : String
deriving DecidableEq, Repr

/-- A `dynamic.Interface` value handed out by `dynamic.NewForConfig`. -/
structure Client where
  id : Nat
deriving DecidableEq, Repr

/-- The `schema.GroupVersionResource` triple. -/
structure GroupVersionResource where
  Group : String
  Version : String
  Resource : String
deriving DecidableEq, Repr

/-- The `schema.GroupResource` pair (second result of `ParseResourceArg`). -/
structure GroupResource where
  Group : String
  Resource : String
deriving DecidableEq, Repr

/-- The `metav1.ListOptions` fields a tweak function may change. -/
structure ListOptions where
  LabelSelector : String
  FieldSelector : String
deriving DecidableEq, Repr

/-- The type `dynamicinformer.TweakListOptionsFunc`. -/
abbrev TweakListOptionsFunc := ListOptions → ListOptions

/-- The constant `v1.NamespaceAll` of apimachinery: the empty string. -/
def v1.NamespaceAll : String := ""

/-- A factory as built by `NewFilteredDynamicSharedInformerFactory`: it is
identified by the four arguments of its construction.  A nil client or a nil
tweak function is `none`; the resync period is a `time.Duration`. -/
structure DynamicSharedInformerFactory where
  client : Option Client
  defaultResync : Int
  ns : String
  tweakListOptions : Option TweakListOptionsFunc

/-- The `informers.GenericInformer` returned by `f.ForResource(gvr)`. -/
structure GenericInformer where
  factory : DynamicSharedInformerFactory
  gvr : GroupVersionResource

/-- The `cache.SharedIndexInformer` returned by `i.Informer()`. -/
structure SharedIndexInformer where
  of : GenericInformer

/-- A channel created by `make`, identified by its order of creation. -/
structure Chan where
  id : Nat
deriving DecidableEq, Repr

/-- The two signals `main` subscribes to. -/
inductive Signal where
  | Kill
  | Interrupt
deriving DecidableEq, Repr

/-- The value `os.Kill`. -/
def os.Kill : Signal := Signal.Kill

/-- The value `os.Interrupt`. -/
def os.Interrupt : Signal := Signal.Interrupt

/-- The number of a signal: 9 for SIGKILL, 2 for SIGINT. -/
def Signal.number : Signal → Nat
  | Signal.Kill => 9
  | Signal.Interrupt => 2

/-- An `interface{}` payload handed to an event callback: nil (`none`) or some
object, stood for by its serialised content. -/
abbrev Object := Option String

/-! ## Executions -/

/-- How a Go function ends. -/
inductive Outcome (α : Type) where
  /-- A normal return with a value. -/
  | ret (a : α)
  /-- The process was ended by `os.Exit code`. -/
  | exit (code : Nat)
  /-- A run-time panic that nothing recovers: the Go run time prints the panic
  to stderr (no klog line) and the process ends with status 2. -/
  | panic (msg : String)
  /-- The process was ended by the operating system on a signal it cannot
  catch. -/
  | killed (signal : Nat)
  /-- The function blocks forever. -/
  | blocked
deriving DecidableEq, Repr

/-- An execution: the events it produced, in order, and how it ended. -/
structure Exec (ε α : Type) where
  trace : List ε
  outcome : Outcome α

/-- Returning a value produces no event. -/
def Exec.pure {ε α : Type} (a : α) : Exec ε α := ⟨[], Outcome.ret a⟩

/-- Sequencing: the continuation runs only when the first part returned. -/
def Exec.bind {ε α β : Type} (m : Exec ε α) (k : α → Exec ε β) : Exec ε β :=
  match m.outcome with
  | Outcome.ret a => ⟨m.trace ++ (k a).trace, (k a).outcome⟩
  | Outcome.exit c => ⟨m.trace, Outcome.exit c⟩
  | Outcome.panic s => ⟨m.trace, Outcome.panic s⟩
  | Outcome.killed n => ⟨m.trace, Outcome.killed n⟩
  | Outcome.blocked => ⟨m.trace, Outcome.blocked⟩

instance (ε : Type) : Monad (Exec ε) where
  pure := Exec.pure
  bind := Exec.bind

/-- One recorded event. -/
def emit {ε : Type} (e : ε) : Exec ε Unit := ⟨[e], Outcome.ret ()⟩

/-- One recorded call that returns `a`. -/
def call {ε α : Type} (e : ε) (a : α) : Exec ε α := ⟨[e], Outcome.ret a⟩

/-- Exit status of the process when its main goroutine ends with the given
outcome: 0 after a return of `main`, the code given to `os.Exit`, 2 after an
unrecovered panic (Go run time), 128 plus the number of the signal after a
death by signal (137 for SIGKILL), none while it is blocked. -/
def exitStatus {α : Type} : Outcome α → Option Nat
  | Outcome.ret _ => some 0
  | Outcome.exit c => some c
  | Outcome.panic _ => some 2
  | Outcome.killed n => some (128 + n)
  | Outcome.blocked => none

/-! ## klog -/

/-- Severities of klog. -/
inductive Severity where
  | info
  | warning
  | error
  | fatal
deriving DecidableEq, Repr

/-- One line written by klog. -/
structure LogLine where
  severity : Severity
  text : String
deriving DecidableEq, Repr

/-- The call `klog.Info(msg)`: one line of severity info. -/
def klog.Info (msg : String) : Exec LogLine Unit :=
  emit ⟨Severity.info, msg⟩

/-- The call `klog.Fatalf`: one line of severity fatal, then `os.Exit(255)`. -/
def klog.Fatalf (msg : String) : Exec LogLine Unit :=
  ⟨[⟨Severity.fatal, msg⟩], Outcome.exit 255⟩

/-- The verb `%v` applied to an error: nil prints as `<nil>`. -/
def fmtV (err : Option Error) : String :=
  match err with
  | some e => e.msg
  | none => "<nil>"

/-! ## cache.ResourceEventHandlerFuncs -/

/-- The record `cache.ResourceEventHandlerFuncs`; a field left out is nil. -/
structure ResourceEventHandlerFuncs where
  AddFunc : Option (Object → Exec LogLine Unit)
  UpdateFunc : Option (Object → Object → Exec LogLine Unit)
  DeleteFunc : Option (Object → Exec LogLine Unit)

/-! ## Events of the program -/

/-- The calls and channel operations of the program. -/
inductive Event where
  | klogInitFlags
  | flagParse
  | BuildConfigFromFlags (masterUrl kubeconfigPath : String)
  | InClusterConfig
  | Getenv (key : String)
  | NewForConfig (cfg : Option Config)
  | NewFilteredDynamicSharedInformerFactory (client : Option Client) (defaultResync : Int)
      (ns : String) (tweakListOptions : Option TweakListOptionsFunc)
  | ParseResourceArg (arg : String)
  | ForResource (f : DynamicSharedInformerFactory) (gvr : GroupVersionResource)
  | Informer (i : GenericInformer)
  | makeChan (c : Chan)
  | goStartWatching (stopCh : Chan) (s : SharedIndexInformer)
  | signalNotify (c : Chan) (sigs : List Signal)
  | recv (c : Chan) (sig : Signal)
  | close (c : Chan)
  | log (l : LogLine)
  | AddEventHandler (s : SharedIndexInformer) (handlers : ResourceEventHandlerFuncs)
  | Run (s : SharedIndexInformer) (stopCh : Chan)

/-- A klog call made from the program proper. -/
def liftLog {α : Type} (m : Exec LogLine α) : Exec Event α :=
  ⟨m.trace.map Event.log, m.outcome⟩

/-- The answers of the outside world: the external libraries, the process
environment and the signals sent to the process. -/
structure Env where
  /-- Result of `clientcmd.BuildConfigFromFlags(masterUrl, kubeconfigPath)`.
  What the library does to find this answer is its own business: for a file
  that holds no configuration it falls back to the in-cluster configuration,
  so the answer for a path may differ between a world inside and a world
  outside a cluster. -/
  BuildConfigFromFlags : String → String → Option Config × Option Error
  /-- Result of `rest.InClusterConfig()`. -/
  InClusterConfig : Option Config × Option Error
  /-- Result of `os.Getenv(key)`. -/
  Getenv : String → String
  /-- Result of `dynamic.NewForConfig(cfg)`. -/
  NewForConfig : Option Config → Option Client × Option Error
  /-- Result of `schema.ParseResourceArg(arg)`; a nil pointer is `none`. -/
  ParseResourceArg : String → Option GroupVersionResource × GroupResource
  /-- The signals delivered to the process, in order, from the moment `main`
  waits on the signal channel until the process has ended. -/
  delivered : List Signal
  /-- How many of the signals that follow the first one arrive before the
  statement `close(stopCh)` runs; the others arrive after it. -/
  beforeClose : Nat
  /-- How `s.Run(stopCh)` ends. -/
  Run : SharedIndexInformer → Chan → Outcome Unit

/-- Message of the Go run time for the dereference of a nil pointer. -/
def nilDereference : String :=
  "runtime error: invalid memory address or nil pointer dereference"

/-- The expression `*p`: panics when `p` is nil. -/
def deref {α : Type} (p : Option α) : Exec Event α :=
  match p with
  | some a => Exec.pure a
  | none => ⟨[], Outcome.panic nilDereference⟩

/-- The receive `<-c` on the signal channel, for the first signal delivered.
With no signal the receive blocks forever.  An interrupt is relayed by
`signal.Notify` and received.  A kill cannot be caught, whatever was given to
`signal.Notify`: nothing is relayed and the process is ended. -/
def recvSignal (env : Env) (c : Chan) : Exec Event Signal :=
  match env.delivered with
  | [] => ⟨[], Outcome.blocked⟩
  | Signal.Kill :: _ => ⟨[], Outcome.killed (Signal.number Signal.Kill)⟩
  | Signal.Interrupt :: _ => call (Event.recv c Signal.Interrupt) Signal.Interrupt

/-- The signals that follow the first one and arrive before `close(stopCh)`. -/
def Env.early (env : Env) : List Signal :=
  env.delivered.tail.take env.beforeClose

/-- The signals that follow the first one and arrive after `close(stopCh)`,
before the process has ended. -/
def Env.late (env : Env) : List Signal :=
  env.delivered.tail.drop env.beforeClose

/-- Signals arriving while `main` is not receiving.  A kill ends the process.
An interrupt is relayed by `signal.Notify` to the unbuffered channel, finds
no receiver and is dropped. -/
def arrive (sigs : List Signal) : Exec Event Unit :=
  if Signal.Kill ∈ sigs then ⟨[], Outcome.killed (Signal.number Signal.Kill)⟩
  else Exec.pure ()

/-! ## The program -/

/-- The function `buildConfig` (main.go, lines 18-32). -/
def buildConfig (env : Env) (kubeconfig : String) :
    Exec Event (Option Config × Option Error) :=
  if kubeconfig ≠ "" then do
    let (cfg, err) ← call (Event.BuildConfigFromFlags "" kubeconfig)
      (env.BuildConfigFromFlags "" kubeconfig)
    if err ≠ none then
      return (none, err)
    else
      return (cfg, none)
  else do
    let (cfg, err) ← call Event.InClusterConfig env.InClusterConfig
    if err ≠ none then
      return (none, err)
    else
      return (cfg, none)

/-- The function `restConfig` (main.go, lines 81-92). -/
def restConfig (env : Env) : Exec Event (Option Config × Option Error) := do
  let (kubeCfg, err) ← call Event.InClusterConfig env.InClusterConfig
  let kubeconfig ← call (Event.Getenv "KUBECONFIG") (env.Getenv "KUBECONFIG")
  let (kubeCfg, err) ←
    if kubeconfig ≠ "" then
      call (Event.BuildConfigFromFlags "" kubeconfig) (env.BuildConfigFromFlags "" kubeconfig)
    else
      Exec.pure (kubeCfg, err)
  if err ≠ none then
    return (none, err)
  else
    return (kubeCfg, none)

/-- The local variable `handlers` of `startWatching` (main.go, lines 95-105). -/
def startWatching.handlers : ResourceEventHandlerFuncs where
  AddFunc := some (fun _obj => klog.Info "received add event!")
  UpdateFunc := some (fun _oldObj _obj => klog.Info "received update event!")
  DeleteFunc := some (fun _obj => klog.Info "received update event!")

/-- The function `startWatching` (main.go, lines 94-109). -/
def startWatching (env : Env) (stopCh : Chan) (s : SharedIndexInformer) : Exec Event Unit := do
  let handlers := startWatching.handlers
  emit (Event.AddEventHandler s handlers)
  (⟨[Event.Run s stopCh], env.Run s stopCh⟩ : Exec Event Unit)

/-- The values of the two command-line flags after `flag.Parse()`. -/
structure Flags where
  kubeconfig : String
  gvr : String
deriving DecidableEq, Repr

/-- The function `main` (main.go, lines 34-79). -/
def main (env : Env) (flags : Flags) : Exec Event Unit := do
  emit Event.klogInitFlags
  let kubeconfig := flags.kubeconfig
  let gvrstr := flags.gvr
  emit Event.flagParse
  let (cfg, err) ← buildConfig env kubeconfig
  if err ≠ none then
    liftLog (klog.Fatalf ("could not get config, err " ++ fmtV err))
  let (dc, err) ← call (Event.NewForConfig cfg) (env.NewForConfig cfg)
  if err ≠ none then
    liftLog (klog.Fatalf ("could not generate dynamic client for config, err " ++ fmtV err))
  let f ← call (Event.NewFilteredDynamicSharedInformerFactory dc 0 v1.NamespaceAll none)
    (DynamicSharedInformerFactory.mk dc 0 v1.NamespaceAll none)
  let (gvr, _) ← call (Event.ParseResourceArg gvrstr) (env.ParseResourceArg gvrstr)
  let g ← deref gvr
  let i ← call (Event.ForResource f g) (GenericInformer.mk f g)
  let stopCh ← call (Event.makeChan ⟨0⟩) (Chan.mk 0)
  let s ← call (Event.Informer i) (SharedIndexInformer.mk i)
  emit (Event.goStartWatching stopCh s)
  let sigCh ← call (Event.makeChan ⟨1⟩) (Chan.mk 1)
  emit (Event.signalNotify sigCh [os.Kill, os.Interrupt])
  let _ ← recvSignal env sigCh
  arrive env.early
  emit (Event.close stopCh)
  arrive env.late

/-! ## Observing a run -/

/-- The goroutines started by the `go` statements of a trace. -/
def goroutines (env : Env) (tr : List Event) : List (Exec Event Unit) :=
  tr.filterMap fun e =>
    match e with
    | Event.goStartWatching stopCh s => some (startWatching env stopCh s)
    | _ => none

/-- Every event of the process: the events of `main`, then those of each
goroutine `main` started. -/
def processEvents (env : Env) (flags : Flags) : List Event :=
  (main env flags).trace ++ ((goroutines env (main env flags).trace).map Exec.trace).flatten

/-- The factories built in a trace. -/
def factories (tr : List Event) : List DynamicSharedInformerFactory :=
  tr.filterMap fun e =>
    match e with
    | Event.NewFilteredDynamicSharedInformerFactory dc r n t => some ⟨dc, r, n, t⟩
    | _ => none

/-- The informers requested from a factory in a trace. -/
def requested (tr : List Event) : List GenericInformer :=
  tr.filterMap fun e =>
    match e with
    | Event.ForResource f g => some ⟨f, g⟩
    | _ => none

/-- The launches of `startWatching` in a trace. -/
def launched (tr : List Event) : List (Chan × SharedIndexInformer) :=
  tr.filterMap fun e =>
    match e with
    | Event.goStartWatching c s => some (c, s)
    | _ => none

/-- The handler sets registered in a trace. -/
def registered (tr : List Event) : List ResourceEventHandlerFuncs :=
  tr.filterMap fun e =>
    match e with
    | Event.AddEventHandler _ h => some h
    | _ => none

/-- The channels closed in a trace. -/
def closes (tr : List Event) : List Chan :=
  tr.filterMap fun e =>
    match e with
    | Event.close c => some c
    | _ => none

/-- The lines of severity fatal logged in a trace. -/
def fatalLines (tr : List Event) : List String :=
  tr.filterMap fun e =>
    match e with
    | Event.log ⟨Severity.fatal, t⟩ => some t
    | _ => none

/-- The external loaders consulted in a trace: `true` for the kubeconfig file
loader, `false` for in-cluster discovery. -/
def loaderCalls (tr : List Event) : List Bool :=
  tr.filterMap fun e =>
    match e with
    | Event.BuildConfigFromFlags _ _ => some true
    | Event.InClusterConfig => some false
    | _ => none

/-- The calls of `dynamic.NewForConfig` in a trace. -/
def clientCalls (tr : List Event) : List (Option Config) :=
  tr.filterMap fun e =>
    match e with
    | Event.NewForConfig cfg => some cfg
    | _ => none

/-- The installations of a signal handler in a trace. -/
def notified (tr : List Event) : List (Chan × List Signal) :=
  tr.filterMap fun e =>
    match e with
    | Event.signalNotify c sigs => some (c, sigs)
    | _ => none

/-- An event of the steps of `main` that follow the construction of the
client: factory, GVR parsing, informer, channels, launch, signal handler,
receive and close, and the two calls of `startWatching`. -/
def Event.isLaterStep : Event → Bool
  | Event.NewFilteredDynamicSharedInformerFactory _ _ _ _ => true
  | Event.ParseResourceArg _ => true
  | Event.ForResource _ _ => true
  | Event.Informer _ => true
  | Event.makeChan _ => true
  | Event.goStartWatching _ _ => true
  | Event.signalNotify _ _ => true
  | Event.recv _ _ => true
  | Event.close _ => true
  | Event.AddEventHandler _ _ => true
  | Event.Run _ _ => true
  | _ => false

/-- An event of the watch: obtaining an informer, launching `startWatching`,
registering handlers or running the informer. -/
def Event.isWatchStep : Event → Bool
  | Event.ForResource _ _ => true
  | Event.Informer _ => true
  | Event.goStartWatching _ _ => true
  | Event.AddEventHandler _ _ => true
  | Event.Run _ _ => true
  | _ => false

/-- Whether every close of `stopCh` in the trace comes after a receive on
`sigCh`; `seen` tells whether such a receive has already happened. -/
def closedOnlyAfterRecv (sigCh stopCh : Chan) : Bool → List Event → Bool
  | _, [] => true
  | seen, Event.recv c _ :: tr => closedOnlyAfterRecv sigCh stopCh (seen || decide (c = sigCh)) tr
  | seen, Event.close c :: tr =>
      (seen || !decide (c = stopCh)) && closedOnlyAfterRecv sigCh stopCh seen tr
  | seen, _ :: tr => closedOnlyAfterRecv sigCh stopCh seen tr

/-! ## A sample environment -/

/-- A sample outside world.  The file `/home/dev/.kube/config` is a valid
kubeconfig, `/home/dev/.kube/badhost` loads but names a host no client can be
built for, every other path is missing; in-cluster discovery succeeds exactly
when `inCluster`; the variable `KUBECONFIG` holds `kubeconfigVar`; only
`deployments.v1.apps` parses to a group/version/resource; the signals that
follow the first one arrive after the close of the stop channel; the run loop
of an informer never returns by itself. -/
def sampleEnv (inCluster : Bool) (kubeconfigVar : String) (delivered : List Signal) : Env where
  BuildConfigFromFlags := fun _ path =>
    if path = "/home/dev/.kube/config" then (some ⟨"https://10.0.0.1:6443"⟩, none)
    else if path = "/home/dev/.kube/badhost" then (some ⟨"http://[::1"⟩, none)
    else (none, some ⟨"stat " ++ path ++ ": no such file or directory"⟩)
  InClusterConfig :=
    if inCluster then (some ⟨"https://kubernetes.default.svc"⟩, none)
    else (none, some ⟨"unable to load in-cluster configuration"⟩)
  Getenv := fun key => if key = "KUBECONFIG" then kubeconfigVar else ""
  NewForConfig := fun cfg =>
    if cfg = some ⟨"http://[::1"⟩ then (none, some ⟨"parse http://[::1: missing ']' in host"⟩)
    else (some ⟨7⟩, none)
  ParseResourceArg := fun arg =>
    if arg = "deployments.v1.apps" then
      (some ⟨"apps", "v1", "deployments"⟩, ⟨"v1.apps", "deployments"⟩)
    else (none, ⟨"", arg⟩)
  delivered := delivered
  beforeClose := 0
  Run := fun _ _ => Outcome.blocked

/-- A second sample world, in which the file `/home/dev/.kube/empty.yaml`
exists and holds no configuration.  For such a file the loader of clientcmd
falls back to the in-cluster configuration: inside a cluster it answers with
the in-cluster config, outside a cluster with an error.  Everything else is as
in `sampleEnv`. -/
def emptyFileEnv (inCluster : Bool) : Env where
  BuildConfigFromFlags := fun masterUrl path =>
    if path = "/home/dev/.kube/empty.yaml" then
      if inCluster then (some ⟨"https://kubernetes.default.svc"⟩, none)
      else (none, some ⟨"invalid configuration: no configuration has been provided"⟩)
    else (sampleEnv inCluster "" []).BuildConfigFromFlags masterUrl path
  InClusterConfig := (sampleEnv inCluster "" []).InClusterConfig
  Getenv := (sampleEnv inCluster "" []).Getenv
  NewForConfig := (sampleEnv inCluster "" []).NewForConfig
  ParseResourceArg := (sampleEnv inCluster "" []).ParseResourceArg
  delivered := []
  beforeClose := 0
  Run := (sampleEnv inCluster "" []).Run

/-! ## Basic facts about executions -/

theorem bind_eq {ε α β : Type} (m : Exec ε α) (k : α → Exec ε β) :
    (m >>= k) = Exec.bind m k := rfl

theorem pure_eq {ε α : Type} (a : α) : (Pure.pure a : Exec ε α) = Exec.pure a := rfl

theorem bind_ret {ε α β : Type} (t : List ε) (a : α) (k : α → Exec ε β) :
    Exec.bind ⟨t, Outcome.ret a⟩ k = ⟨t ++ (k a).trace, (k a).outcome⟩ := rfl

theorem bind_exit {ε α β : Type} (t : List ε) (c : Nat) (k : α → Exec ε β) :
    Exec.bind ⟨t, Outcome.exit c⟩ k = ⟨t, Outcome.exit c⟩ := rfl

theorem bind_panic {ε α β : Type} (t : List ε) (m : String) (k : α → Exec ε β) :
    Exec.bind ⟨t, Outcome.panic m⟩ k = ⟨t, Outcome.panic m⟩ := rfl

theorem bind_killed {ε α β : Type} (t : List ε) (n : Nat) (k : α → Exec ε β) :
    Exec.bind ⟨t, Outcome.killed n⟩ k = ⟨t, Outcome.killed n⟩ := rfl

theorem bind_blocked {ε α β : Type} (t : List ε) (k : α → Exec ε β) :
    Exec.bind ⟨t, Outcome.blocked⟩ k = ⟨t, Outcome.blocked⟩ := rfl

/-- The result `buildConfig` and `restConfig` make of a loader's answer: the
config is dropped when there is an error. -/
def checked (r : Option Config × Option Error) : Option Config × Option Error :=
  if r.2 ≠ none then (none, r.2) else (r.1, none)

theorem buildConfig_eq (env : Env) (kubeconfig : String) :
    buildConfig env kubeconfig =
      if kubeconfig ≠ "" then
        ⟨[Event.BuildConfigFromFlags "" kubeconfig],
          Outcome.ret (checked (env.BuildConfigFromFlags "" kubeconfig))⟩
      else ⟨[Event.InClusterConfig], Outcome.ret (checked env.InClusterConfig)⟩ := by
  unfold buildConfig checked
  by_cases hk : kubeconfig = ""
  · rcases h : env.InClusterConfig with ⟨cfg, err⟩
    cases err <;> simp [hk, h, bind_eq, pure_eq, call, Exec.pure, bind_ret]
  · rcases h : env.BuildConfigFromFlags "" kubeconfig with ⟨cfg, err⟩
    cases err <;> simp [hk, h, bind_eq, pure_eq, call, Exec.pure, bind_ret]

theorem restConfig_eq (env : Env) :
    restConfig env =
      if env.Getenv "KUBECONFIG" ≠ "" then
        ⟨[Event.InClusterConfig, Event.Getenv "KUBECONFIG",
            Event.BuildConfigFromFlags "" (env.Getenv "KUBECONFIG")],
          Outcome.ret (checked (env.BuildConfigFromFlags "" (env.Getenv "KUBECONFIG")))⟩
      else
        ⟨[Event.InClusterConfig, Event.Getenv "KUBECONFIG"],
          Outcome.ret (checked env.InClusterConfig)⟩ := by
  unfold restConfig checked
  by_cases hk : env.Getenv "KUBECONFIG" = ""
  · rcases h : env.InClusterConfig with ⟨cfg, err⟩
    cases err <;> simp [hk, h, bind_eq, pure_eq, call, Exec.pure, bind_ret]
  · rcases h : env.BuildConfigFromFlags "" (env.Getenv "KUBECONFIG") with ⟨cfg, err⟩
    rcases h2 : env.InClusterConfig with ⟨cfg2, err2⟩
    cases err <;> simp [hk, h, h2, bind_eq, pure_eq, call, Exec.pure, bind_ret]

/-! ## The five ways `main` can run -/

/-- The events of `main` up to and including the call of `buildConfig`. -/
def configPhase (t : List Event) : List Event :=
  Event.klogInitFlags :: Event.flagParse :: t

/-- The events of `main` from the construction of the factory to the parsing
of the `-gvr` flag. -/
def factoryPhase (cfg : Option Config) (dc : Option Client) (gvrstr : String) : List Event :=
  [Event.NewForConfig cfg,
   Event.NewFilteredDynamicSharedInformerFactory dc 0 v1.NamespaceAll none,
   Event.ParseResourceArg gvrstr]

/-- The events of `main` from the request of the informer to the installation
of the signal handler. -/
def watchPhase (dc : Option Client) (g : GroupVersionResource) : List Event :=
  [Event.ForResource ⟨dc, 0, v1.NamespaceAll, none⟩ g,
   Event.makeChan ⟨0⟩,
   Event.Informer ⟨⟨dc, 0, v1.NamespaceAll, none⟩, g⟩,
   Event.goStartWatching ⟨0⟩ ⟨⟨⟨dc, 0, v1.NamespaceAll, none⟩, g⟩⟩,
   Event.makeChan ⟨1⟩,
   Event.signalNotify ⟨1⟩ [os.Kill, os.Interrupt]]

theorem main_config_error (env : Env) (flags : Flags) (t : List Event)
    (cfg : Option Config) (e : Error)
    (hb : buildConfig env flags.kubeconfig = ⟨t, Outcome.ret (cfg, some e)⟩) :
    main env flags =
      ⟨configPhase t ++ [Event.log ⟨Severity.fatal, "could not get config, err " ++ e.msg⟩],
        Outcome.exit 255⟩ := by
  simp [main, hb, bind_eq, pure_eq, call, emit, Exec.pure, bind_ret, bind_exit, liftLog,
    klog.Fatalf, fmtV, configPhase]

theorem main_client_error (env : Env) (flags : Flags) (t : List Event)
    (cfg : Option Config) (dc : Option Client) (e : Error)
    (hb : buildConfig env flags.kubeconfig = ⟨t, Outcome.ret (cfg, none)⟩)
    (hc : env.NewForConfig cfg = (dc, some e)) :
    main env flags =
      ⟨configPhase t ++ [Event.NewForConfig cfg, Event.log ⟨Severity.fatal,
          "could not generate dynamic client for config, err " ++ e.msg⟩],
        Outcome.exit 255⟩ := by
  simp [main, hb, hc, bind_eq, pure_eq, call, emit, Exec.pure, bind_ret, bind_exit, liftLog,
    klog.Fatalf, fmtV, configPhase]

theorem main_gvr_nil (env : Env) (flags : Flags) (t : List Event)
    (cfg : Option Config) (dc : Option Client) (gr : GroupResource)
    (hb : buildConfig env flags.kubeconfig = ⟨t, Outcome.ret (cfg, none)⟩)
    (hc : env.NewForConfig cfg = (dc, none))
    (hg : env.ParseResourceArg flags.gvr = (none, gr)) :
    main env flags =
      ⟨configPhase t ++ factoryPhase cfg dc flags.gvr, Outcome.panic nilDereference⟩ := by
  simp [main, hb, hc, hg, bind_eq, pure_eq, call, emit, Exec.pure, bind_ret, bind_panic, deref,
    configPhase, factoryPhase]

theorem main_waiting (env : Env) (flags : Flags) (t : List Event)
    (cfg : Option Config) (dc : Option Client) (g : GroupVersionResource) (gr : GroupResource)
    (hb : buildConfig env flags.kubeconfig = ⟨t, Outcome.ret (cfg, none)⟩)
    (hc : env.NewForConfig cfg = (dc, none))
    (hg : env.ParseResourceArg flags.gvr = (some g, gr))
    (hs : env.delivered = []) :
    main env flags =
      ⟨configPhase t ++ factoryPhase cfg dc flags.gvr ++ watchPhase dc g, Outcome.blocked⟩ := by
  simp [main, hb, hc, hg, hs, bind_eq, pure_eq, call, emit, Exec.pure, bind_ret, bind_blocked,
    deref, recvSignal, configPhase, factoryPhase, watchPhase]

theorem main_killed_first (env : Env) (flags : Flags) (t : List Event)
    (cfg : Option Config) (dc : Option Client) (g : GroupVersionResource) (gr : GroupResource)
    (rest : List Signal)
    (hb : buildConfig env flags.kubeconfig = ⟨t, Outcome.ret (cfg, none)⟩)
    (hc : env.NewForConfig cfg = (dc, none))
    (hg : env.ParseResourceArg flags.gvr = (some g, gr))
    (hs : env.delivered = Signal.Kill :: rest) :
    main env flags =
      ⟨configPhase t ++ factoryPhase cfg dc flags.gvr ++ watchPhase dc g, Outcome.killed 9⟩ := by
  simp [main, hb, hc, hg, hs, bind_eq, pure_eq, call, emit, Exec.pure, bind_ret, bind_killed,
    deref, recvSignal, Signal.number, configPhase, factoryPhase, watchPhase]

theorem main_killed_early (env : Env) (flags : Flags) (t : List Event)
    (cfg : Option Config) (dc : Option Client) (g : GroupVersionResource) (gr : GroupResource)
    (rest : List Signal)
    (hb : buildConfig env flags.kubeconfig = ⟨t, Outcome.ret (cfg, none)⟩)
    (hc : env.NewForConfig cfg = (dc, none))
    (hg : env.ParseResourceArg flags.gvr = (some g, gr))
    (hs : env.delivered = Signal.Interrupt :: rest)
    (he : Signal.Kill ∈ env.early) :
    main env flags =
      ⟨configPhase t ++ factoryPhase cfg dc flags.gvr ++ watchPhase dc g ++
          [Event.recv ⟨1⟩ Signal.Interrupt],
        Outcome.killed 9⟩ := by
  simp [main, hb, hc, hg, hs, he, bind_eq, pure_eq, call, emit, Exec.pure, bind_ret,
    bind_killed, deref, recvSignal, arrive, Signal.number, configPhase, factoryPhase,
    watchPhase]

theorem main_killed_late (env : Env) (flags : Flags) (t : List Event)
    (cfg : Option Config) (dc : Option Client) (g : GroupVersionResource) (gr : GroupResource)
    (rest : List Signal)
    (hb : buildConfig env flags.kubeconfig = ⟨t, Outcome.ret (cfg, none)⟩)
    (hc : env.NewForConfig cfg = (dc, none))
    (hg : env.ParseResourceArg flags.gvr = (some g, gr))
    (hs : env.delivered = Signal.Interrupt :: rest)
    (he : Signal.Kill ∉ env.early) (hl : Signal.Kill ∈ env.late) :
    main env flags =
      ⟨configPhase t ++ factoryPhase cfg dc flags.gvr ++ watchPhase dc g ++
          [Event.recv ⟨1⟩ Signal.Interrupt, Event.close ⟨0⟩],
        Outcome.killed 9⟩ := by
  simp [main, hb, hc, hg, hs, he, hl, bind_eq, pure_eq, call, emit, Exec.pure, bind_ret,
    bind_killed, deref, recvSignal, arrive, Signal.number, configPhase, factoryPhase,
    watchPhase]

theorem main_stopped (env : Env) (flags : Flags) (t : List Event)
    (cfg : Option Config) (dc : Option Client) (g : GroupVersionResource) (gr : GroupResource)
    (rest : List Signal)
    (hb : buildConfig env flags.kubeconfig = ⟨t, Outcome.ret (cfg, none)⟩)
    (hc : env.NewForConfig cfg = (dc, none))
    (hg : env.ParseResourceArg flags.gvr = (some g, gr))
    (hs : env.delivered = Signal.Interrupt :: rest)
    (he : Signal.Kill ∉ env.early) (hl : Signal.Kill ∉ env.late) :
    main env flags =
      ⟨configPhase t ++ factoryPhase cfg dc flags.gvr ++ watchPhase dc g ++
          [Event.recv ⟨1⟩ Signal.Interrupt, Event.close ⟨0⟩],
        Outcome.ret ()⟩ := by
  simp [main, hb, hc, hg, hs, he, hl, bind_eq, pure_eq, call, emit, Exec.pure, bind_ret,
    deref, recvSignal, arrive, configPhase, factoryPhase, watchPhase]

/-- After a complete setup the trace of `main` is the setup followed by
nothing, by the receive of an interrupt, or by that receive and the close of
the stop channel. -/
theorem main_after_setup (env : Env) (flags : Flags) (t : List Event)
    (cfg : Option Config) (dc : Option Client) (g : GroupVersionResource) (gr : GroupResource)
    (hb : buildConfig env flags.kubeconfig = ⟨t, Outcome.ret (cfg, none)⟩)
    (hc : env.NewForConfig cfg = (dc, none))
    (hg : env.ParseResourceArg flags.gvr = (some g, gr)) :
    ∃ tl, (main env flags).trace =
        configPhase t ++ factoryPhase cfg dc flags.gvr ++ watchPhase dc g ++ tl ∧
      (tl = [] ∨ tl = [Event.recv ⟨1⟩ Signal.Interrupt] ∨
        tl = [Event.recv ⟨1⟩ Signal.Interrupt, Event.close ⟨0⟩]) := by
  rcases hs : env.delivered with _ | ⟨sig, rest⟩
  · exact ⟨[], by rw [main_waiting env flags t cfg dc g gr hb hc hg hs]; simp, Or.inl rfl⟩
  · cases sig
    · exact ⟨[], by rw [main_killed_first env flags t cfg dc g gr rest hb hc hg hs]; simp,
        Or.inl rfl⟩
    · by_cases he : Signal.Kill ∈ env.early
      · exact ⟨_, by rw [main_killed_early env flags t cfg dc g gr rest hb hc hg hs he],
          Or.inr (Or.inl rfl)⟩
      · by_cases hl : Signal.Kill ∈ env.late
        · exact ⟨_, by rw [main_killed_late env flags t cfg dc g gr rest hb hc hg hs he hl],
            Or.inr (Or.inr rfl)⟩
        · exact ⟨_, by rw [main_stopped env flags t cfg dc g gr rest hb hc hg hs he hl],
            Or.inr (Or.inr rfl)⟩

/-- The events of the goroutine `main` starts after a complete setup. -/
def subscriberPhase (dc : Option Client) (g : GroupVersionResource) : List Event :=
  [Event.AddEventHandler ⟨⟨⟨dc, 0, v1.NamespaceAll, none⟩, g⟩⟩ startWatching.handlers,
   Event.Run ⟨⟨⟨dc, 0, v1.NamespaceAll, none⟩, g⟩⟩ ⟨0⟩]

theorem startWatching_eq (env : Env) (stopCh : Chan) (s : SharedIndexInformer) :
    startWatching env stopCh s =
      ⟨[Event.AddEventHandler s startWatching.handlers, Event.Run s stopCh],
        env.Run s stopCh⟩ := by
  simp [startWatching, bind_eq, emit, bind_ret]

theorem buildConfig_shape (env : Env) (kubeconfig : String) :
    ∃ e r, (e = Event.BuildConfigFromFlags "" kubeconfig ∨ e = Event.InClusterConfig) ∧
      buildConfig env kubeconfig = ⟨[e], Outcome.ret r⟩ := by
  rw [buildConfig_eq]
  split
  · exact ⟨_, _, Or.inl rfl, rfl⟩
  · exact ⟨_, _, Or.inr rfl, rfl⟩

/-! ## The config resolver -/

/-- C1 (amended): for a non-empty path `p`, `buildConfig p` makes exactly one
external call, the kubeconfig file loader `BuildConfigFromFlags("", p)`; it
returns `(nil, err)` when the loader gave the error `err`, and the loaded
config with a nil error when the loader gave none; `buildConfig` itself does
not call `rest.InClusterConfig`, and its execution depends on the outside
world only through the answer of the loader for `p` (which is where in-cluster
discovery can still come in). -/
theorem buildConfig_kubeconfig_path (env : Env) (p : String) (hp : p ≠ "") :
    (buildConfig env p).trace = [Event.BuildConfigFromFlags "" p] ∧
    loaderCalls (buildConfig env p).trace = [true] ∧
    (∀ e, (env.BuildConfigFromFlags "" p).2 = some e →
      (buildConfig env p).outcome = Outcome.ret (none, some e)) ∧
    ((env.BuildConfigFromFlags "" p).2 = none →
      (buildConfig env p).outcome = Outcome.ret ((env.BuildConfigFromFlags "" p).1, none)) ∧
    (∀ env2 : Env, env2.BuildConfigFromFlags "" p = env.BuildConfigFromFlags "" p →
      buildConfig env2 p = buildConfig env p) := by
  refine ⟨?_, ?_, ?_, ?_, ?_⟩
  · simp [buildConfig_eq, hp]
  · simp [buildConfig_eq, hp, loaderCalls]
  · intro e he
    simp [buildConfig_eq, hp, checked, he]
  · intro he
    simp [buildConfig_eq, hp, checked, he]
  · intro env2 h
    simp [buildConfig_eq, hp, h]

/-- Witness of C1: outside a cluster, the valid kubeconfig file is loaded and
returned without error, and a missing file gives the loader's error. -/
theorem buildConfig_kubeconfig_path_witness :
    "/home/dev/.kube/config" ≠ "" ∧
    (buildConfig (sampleEnv false "" []) "/home/dev/.kube/config").outcome =
      Outcome.ret (some ⟨"https://10.0.0.1:6443"⟩, none) ∧
    (buildConfig (sampleEnv false "" []) "/nope").outcome =
      Outcome.ret (none, some ⟨"stat /nope: no such file or directory"⟩) :=
  ⟨by decide,
   (buildConfig_kubeconfig_path (sampleEnv false "" []) "/home/dev/.kube/config"
      (by decide)).2.2.2.1 (by decide),
   (buildConfig_kubeconfig_path (sampleEnv false "" []) "/nope" (by decide)).2.2.1
      ⟨"stat /nope: no such file or directory"⟩ (by decide)⟩

/-- C2: `buildConfig("")` makes exactly one external call, in-cluster
discovery `rest.InClusterConfig()`; it returns `(nil, err)` when discovery gave
the error `err`, and the discovered config with a nil error when discovery
gave none; the kubeconfig file loader is not called. -/
theorem buildConfig_in_cluster (env : Env) :
    (buildConfig env "").trace = [Event.InClusterConfig] ∧
    loaderCalls (buildConfig env "").trace = [false] ∧
    (∀ e, env.InClusterConfig.2 = some e →
      (buildConfig env "").outcome = Outcome.ret (none, some e)) ∧
    (env.InClusterConfig.2 = none →
      (buildConfig env "").outcome = Outcome.ret (env.InClusterConfig.1, none)) ∧
    (∀ env2 : Env, env2.InClusterConfig = env.InClusterConfig →
      buildConfig env2 "" = buildConfig env "") := by
  refine ⟨?_, ?_, ?_, ?_, ?_⟩
  · simp [buildConfig_eq]
  · simp [buildConfig_eq, loaderCalls]
  · intro e he
    simp [buildConfig_eq, checked, he]
  · intro he
    simp [buildConfig_eq, checked, he]
  · intro env2 h
    simp [buildConfig_eq, h]

/-- Witness of C2: inside a cluster the discovered config is returned, outside
a cluster the error of the discovery is returned with a nil config. -/
theorem buildConfig_in_cluster_witness :
    (buildConfig (sampleEnv true "" []) "").outcome =
      Outcome.ret (some ⟨"https://kubernetes.default.svc"⟩, none) ∧
    (buildConfig (sampleEnv false "" []) "").outcome =
      Outcome.ret (none, some ⟨"unable to load in-cluster configuration"⟩) :=
  ⟨(buildConfig_in_cluster (sampleEnv true "" [])).2.2.2.1 (by decide),
   (buildConfig_in_cluster (sampleEnv false "" [])).2.2.1
      ⟨"unable to load in-cluster configuration"⟩ (by decide)⟩

/-- C10: `restConfig` returns what `buildConfig` returns for the value of the
environment variable `KUBECONFIG`.  When the variable is not empty the answer
of in-cluster discovery has no influence on the result.  The calls differ:
`restConfig` first calls in-cluster discovery and then reads the variable,
before any call `buildConfig` would make for a non-empty path. -/
theorem restConfig_agrees_with_buildConfig (env : Env) :
    (restConfig env).outcome = (buildConfig env (env.Getenv "KUBECONFIG")).outcome ∧
    (env.Getenv "KUBECONFIG" ≠ "" →
      ∀ env2 : Env, env2.Getenv = env.Getenv →
        env2.BuildConfigFromFlags = env.BuildConfigFromFlags →
        (restConfig env2).outcome = (restConfig env).outcome) ∧
    (restConfig env).trace =
      Event.InClusterConfig :: Event.Getenv "KUBECONFIG" ::
        (if env.Getenv "KUBECONFIG" ≠ "" then
          (buildConfig env (env.Getenv "KUBECONFIG")).trace else []) := by
  refine ⟨?_, ?_, ?_⟩
  · rw [restConfig_eq, buildConfig_eq]
    split <;> rfl
  · intro hk env2 h1 h2
    have hk2 : env2.Getenv "KUBECONFIG" ≠ "" := by rw [h1]; exact hk
    rw [restConfig_eq, restConfig_eq, if_pos hk, if_pos hk2, h1, h2]
  · rw [restConfig_eq, buildConfig_eq]
    split <;> rfl

/-- Witness of C10: outside a cluster, with `KUBECONFIG` naming the valid
file, `restConfig` returns the loaded config; the error of the in-cluster
discovery it called first is discarded. -/
theorem restConfig_agrees_with_buildConfig_witness :
    (sampleEnv false "/home/dev/.kube/config" []).Getenv "KUBECONFIG" ≠ "" ∧
    (sampleEnv false "/home/dev/.kube/config" []).InClusterConfig.2 ≠ none ∧
    (restConfig (sampleEnv true "/home/dev/.kube/config" [])).outcome =
      (restConfig (sampleEnv false "/home/dev/.kube/config" [])).outcome ∧
    (restConfig (sampleEnv false "/home/dev/.kube/config" [])).outcome =
      Outcome.ret (some ⟨"https://10.0.0.1:6443"⟩, none) :=
  ⟨by decide, by decide,
   (restConfig_agrees_with_buildConfig (sampleEnv false "/home/dev/.kube/config" [])).2.1
      (by decide) (sampleEnv true "/home/dev/.kube/config" []) rfl rfl,
   by decide⟩

/-! ## The event subscriber -/

/-- C8: `startWatching(c, s)` makes exactly two calls, in this order: one
`s.AddEventHandler` with a handler set whose three callbacks are all present,
then one `s.Run` with the same channel `c`; it ends the way `Run` ends, so it
returns exactly when `Run` returns. -/
theorem startWatching_registers_then_runs (env : Env) (c : Chan) (s : SharedIndexInformer) :
    ∃ h add upd del,
      (startWatching env c s).trace = [Event.AddEventHandler s h, Event.Run s c] ∧
      h.AddFunc = some add ∧ h.UpdateFunc = some upd ∧ h.DeleteFunc = some del ∧
      (startWatching env c s).outcome = env.Run s c ∧
      ((startWatching env c s).outcome = Outcome.ret () ↔ env.Run s c = Outcome.ret ()) := by
  refine ⟨startWatching.handlers, _, _, _, ?_, rfl, rfl, rfl, ?_, ?_⟩
  · rw [startWatching_eq]
  · rw [startWatching_eq]
  · rw [startWatching_eq]

/-- C4: each of the three callbacks registered by `startWatching` writes one
line of severity info and returns normally, and the line is the same whatever
the payloads are (nil included). -/
theorem callbacks_log_one_line_for_any_payload (env : Env) (c : Chan) (s : SharedIndexInformer) :
    ∃ add upd del, ∃ la lu ld : String,
      registered (startWatching env c s).trace = [⟨some add, some upd, some del⟩] ∧
      (∀ obj : Object, add obj = ⟨[⟨Severity.info, la⟩], Outcome.ret ()⟩) ∧
      (∀ oldObj obj : Object, upd oldObj obj = ⟨[⟨Severity.info, lu⟩], Outcome.ret ()⟩) ∧
      (∀ obj : Object, del obj = ⟨[⟨Severity.info, ld⟩], Outcome.ret ()⟩) := by
  refine ⟨fun _ => klog.Info "received add event!",
    fun _ _ => klog.Info "received update event!",
    fun _ => klog.Info "received update event!",
    "received add event!", "received update event!", "received update event!", ?_, ?_, ?_, ?_⟩
  · rw [startWatching_eq]
    rfl
  · intro obj
    rfl
  · intro oldObj obj
    rfl
  · intro obj
    rfl

/-- C3 (failing input): the delete callback registered by `startWatching`,
called with a nil payload, writes the line `received update event!`, the very
line of the update callback; the add callback writes `received add event!`. -/
theorem delete_callback_logs_update_line :
    ∃ add upd del,
      registered (startWatching (sampleEnv true "" []) ⟨0⟩
        ⟨⟨⟨some ⟨7⟩, 0, v1.NamespaceAll, none⟩, ⟨"apps", "v1", "deployments"⟩⟩⟩).trace =
        [⟨some add, some upd, some del⟩] ∧
      (add none).trace = [⟨Severity.info, "received add event!"⟩] ∧
      (upd none none).trace = [⟨Severity.info, "received update event!"⟩] ∧
      (del none).trace = [⟨Severity.info, "received update event!"⟩] ∧
      (del none).trace = (upd none none).trace :=
  ⟨fun _ => klog.Info "received add event!",
    fun _ _ => klog.Info "received update event!",
    fun _ => klog.Info "received update event!", rfl, rfl, rfl, rfl, rfl⟩

/-! ## The lifecycle controller -/

/-- C6: when `buildConfig` returns an error, or it succeeds and
`dynamic.NewForConfig` returns an error, `main` ends by `os.Exit(255)`; the
last event of the run is its only fatal log line; no later step occurs
anywhere in the process (no factory, no GVR parsing, no informer, no channel,
no launch of `startWatching`, no signal handler, no handler registration, no
`Run`); exactly one loader was called and the client was requested at most
once. -/
theorem main_fatal_on_setup_failure (env : Env) (flags : Flags)
    (hfail : (∃ c e, (buildConfig env flags.kubeconfig).outcome = Outcome.ret (c, some e)) ∨
      (∃ c dc e, (buildConfig env flags.kubeconfig).outcome = Outcome.ret (c, none) ∧
        env.NewForConfig c = (dc, some e))) :
    (main env flags).outcome = Outcome.exit 255 ∧
    exitStatus (main env flags).outcome = some 255 ∧
    (∃ pre line, (main env flags).trace = pre ++ [Event.log ⟨Severity.fatal, line⟩] ∧
      fatalLines pre = []) ∧
    (processEvents env flags).all (fun e => !e.isLaterStep) = true ∧
    (loaderCalls (processEvents env flags)).length = 1 ∧
    (clientCalls (processEvents env flags)).length ≤ 1 := by
  obtain ⟨ev, r, hev, hbc⟩ := buildConfig_shape env flags.kubeconfig
  rcases hfail with ⟨c, e, h⟩ | ⟨c, dc, e, h, hc⟩
  · rw [hbc] at h
    simp only [Outcome.ret.injEq] at h
    subst h
    have hm := main_config_error env flags [ev] c e hbc
    refine ⟨by rw [hm], by rw [hm]; rfl, ⟨configPhase [ev], _, by rw [hm], ?_⟩, ?_, ?_, ?_⟩ <;>
      rcases hev with rfl | rfl <;>
      simp [processEvents, hm, configPhase, goroutines, fatalLines, loaderCalls, clientCalls,
        Event.isLaterStep]
  · rw [hbc] at h
    simp only [Outcome.ret.injEq] at h
    subst h
    have hm := main_client_error env flags [ev] c dc e hbc hc
    refine ⟨by rw [hm], by rw [hm]; rfl,
      ⟨configPhase [ev] ++ [Event.NewForConfig c],
        "could not generate dynamic client for config, err " ++ e.msg, by rw [hm]; simp, ?_⟩,
      ?_, ?_, ?_⟩ <;>
      rcases hev with rfl | rfl <;>
      simp [processEvents, hm, configPhase, goroutines, fatalLines, loaderCalls, clientCalls,
        Event.isLaterStep]

/-- Witness of C6: a missing kubeconfig file, and a kubeconfig whose host no
client can be built for, both end `main` with status 255. -/
theorem main_fatal_on_setup_failure_witness :
    (buildConfig (sampleEnv true "" []) "/nope").outcome =
      Outcome.ret (none, some ⟨"stat /nope: no such file or directory"⟩) ∧
    exitStatus (main (sampleEnv true "" []) ⟨"/nope", "deployments.v1.apps"⟩).outcome
      = some 255 ∧
    exitStatus (main (sampleEnv true "" [])
      ⟨"/home/dev/.kube/badhost", "deployments.v1.apps"⟩).outcome = some 255 :=
  ⟨by decide,
   (main_fatal_on_setup_failure (sampleEnv true "" []) ⟨"/nope", "deployments.v1.apps"⟩
      (Or.inl ⟨none, ⟨"stat /nope: no such file or directory"⟩, by decide⟩)).2.1,
   (main_fatal_on_setup_failure (sampleEnv true "" [])
      ⟨"/home/dev/.kube/badhost", "deployments.v1.apps"⟩
      (Or.inr ⟨some ⟨"http://[::1"⟩, none, ⟨"parse http://[::1: missing ']' in host"⟩,
        by decide, by decide⟩)).2.1⟩

/-- C5 (failing input): inside a cluster, with the default flags (empty
`-kubeconfig`, empty `-gvr`), the config and the client are built, the empty
string yields no GVR, and `main` ends by the run-time panic of a nil pointer
dereference (status 2): no fatal line is logged.  No informer is requested, and
`startWatching` and `Run` do not occur. -/
theorem main_unparsable_gvr_panics :
    (buildConfig (sampleEnv true "" []) "").outcome =
      Outcome.ret (some ⟨"https://kubernetes.default.svc"⟩, none) ∧
    (sampleEnv true "" []).NewForConfig (some ⟨"https://kubernetes.default.svc"⟩) =
      (some ⟨7⟩, none) ∧
    ((sampleEnv true "" []).ParseResourceArg "").1 = none ∧
    (main (sampleEnv true "" []) ⟨"", ""⟩).outcome = Outcome.panic nilDereference ∧
    exitStatus (main (sampleEnv true "" []) ⟨"", ""⟩).outcome = some 2 ∧
    fatalLines (processEvents (sampleEnv true "" []) ⟨"", ""⟩) = [] ∧
    (processEvents (sampleEnv true "" []) ⟨"", ""⟩).all (fun e => !e.isWatchStep) = true := by
  refine ⟨by decide, by decide, by decide, by decide, by decide, by decide, by decide⟩

/-- C9: when the config and the client are built, the process builds exactly
one factory, from the client returned for the resolved config, with resync
period 0, the namespace `v1.NamespaceAll` and a nil tweak function, whatever
the flags are; when the `-gvr` flag parses to `g`, exactly one informer is
requested, for `g` from that factory, and it is the informer `startWatching`
is launched with (together with channel 0, the stop channel); when the flag
does not parse, no informer is requested at all. -/
theorem main_factory_configuration (env : Env) (flags : Flags)
    (cfg : Option Config) (dc : Option Client)
    (hb : (buildConfig env flags.kubeconfig).outcome = Outcome.ret (cfg, none))
    (hc : env.NewForConfig cfg = (dc, none)) :
    clientCalls (processEvents env flags) = [cfg] ∧
    factories (processEvents env flags) = [⟨dc, 0, v1.NamespaceAll, none⟩] ∧
    (∀ g gr, env.ParseResourceArg flags.gvr = (some g, gr) →
      requested (processEvents env flags) = [⟨⟨dc, 0, v1.NamespaceAll, none⟩, g⟩] ∧
      launched (processEvents env flags) =
        [(⟨0⟩, ⟨⟨⟨dc, 0, v1.NamespaceAll, none⟩, g⟩⟩)]) ∧
    (∀ gr, env.ParseResourceArg flags.gvr = (none, gr) →
      requested (processEvents env flags) = [] ∧ launched (processEvents env flags) = []) := by
  obtain ⟨ev, r, hev, hbc⟩ := buildConfig_shape env flags.kubeconfig
  rw [hbc] at hb
  simp only [Outcome.ret.injEq] at hb
  subst hb
  rcases hg : env.ParseResourceArg flags.gvr with ⟨_ | g, gr⟩
  · have hm := main_gvr_nil env flags [ev] cfg dc gr hbc hc hg
    rcases hev with rfl | rfl <;>
      simp [processEvents, hm, configPhase, factoryPhase, goroutines,
        clientCalls, factories, requested, launched]
  · obtain ⟨tl, htr, htl⟩ := main_after_setup env flags [ev] cfg dc g gr hbc hc hg
    rcases htl with rfl | rfl | rfl <;> rcases hev with rfl | rfl <;>
      simp [processEvents, htr, configPhase, factoryPhase, watchPhase, goroutines,
        startWatching_eq, clientCalls, factories, requested, launched]

/-- Witness of C9: inside a cluster, with `-gvr=deployments.v1.apps`, the one
informer requested is the one for deployments of apps/v1, from the factory
with resync period 0 over all namespaces. -/
theorem main_factory_configuration_witness :
    (buildConfig (sampleEnv true "" [Signal.Interrupt]) "").outcome =
      Outcome.ret (some ⟨"https://kubernetes.default.svc"⟩, none) ∧
    requested (processEvents (sampleEnv true "" [Signal.Interrupt])
      ⟨"", "deployments.v1.apps"⟩) =
      [⟨⟨some ⟨7⟩, 0, "", none⟩, ⟨"apps", "v1", "deployments"⟩⟩] :=
  ⟨by decide,
   ((main_factory_configuration (sampleEnv true "" [Signal.Interrupt])
      ⟨"", "deployments.v1.apps"⟩ (some ⟨"https://kubernetes.default.svc"⟩) (some ⟨7⟩)
      (by decide) (by decide)).2.2.1 ⟨"apps", "v1", "deployments"⟩ ⟨"v1.apps", "deployments"⟩
      (by decide)).1⟩

/-- C7 (amended): when setup completes (config, client and GVR obtained),
`main` hands channel 0 to `startWatching` as stop channel and registers
channel 1 with `signal.Notify`.  In the whole process no close of the stop
channel comes before a receive on the signal channel, and a channel is closed
at most once.  With no signal delivered nothing is closed and `main` stays
blocked.  With one or more interrupts delivered and no kill among them, `main`
receives the first, closes the stop channel exactly once as its last event and
returns at once (status 0), without waiting for `Run`.  A kill cannot be
relayed: once one is delivered the process is ended by it (status 137), and
when it is the first signal delivered nothing is closed. -/
theorem main_closes_stop_channel_once (env : Env) (flags : Flags)
    (cfg : Option Config) (dc : Option Client) (g : GroupVersionResource) (gr : GroupResource)
    (hb : (buildConfig env flags.kubeconfig).outcome = Outcome.ret (cfg, none))
    (hc : env.NewForConfig cfg = (dc, none))
    (hg : env.ParseResourceArg flags.gvr = (some g, gr)) :
    (∃ s, launched (main env flags).trace = [(⟨0⟩, s)]) ∧
    notified (main env flags).trace = [(⟨1⟩, [os.Kill, os.Interrupt])] ∧
    closedOnlyAfterRecv ⟨1⟩ ⟨0⟩ false (processEvents env flags) = true ∧
    (closes (processEvents env flags)).length ≤ 1 ∧
    (env.delivered = [] →
      closes (processEvents env flags) = [] ∧ (main env flags).outcome = Outcome.blocked) ∧
    (∀ rest, env.delivered = Signal.Interrupt :: rest → Signal.Kill ∉ rest →
      closes (processEvents env flags) = [⟨0⟩] ∧
      (∃ pre, (main env flags).trace =
          pre ++ [Event.recv ⟨1⟩ Signal.Interrupt, Event.close ⟨0⟩] ∧ closes pre = []) ∧
      (main env flags).outcome = Outcome.ret () ∧
      exitStatus (main env flags).outcome = some 0) ∧
    (Signal.Kill ∈ env.delivered →
      (main env flags).outcome = Outcome.killed 9 ∧
      exitStatus (main env flags).outcome = some 137) ∧
    (∀ rest, env.delivered = Signal.Kill :: rest →
      closes (processEvents env flags) = []) := by
  obtain ⟨ev, r, hev, hbc⟩ := buildConfig_shape env flags.kubeconfig
  rw [hbc] at hb
  simp only [Outcome.ret.injEq] at hb
  subst hb
  obtain ⟨tl, htr, htl⟩ := main_after_setup env flags [ev] cfg dc g gr hbc hc hg
  have hp : processEvents env flags =
      configPhase [ev] ++ factoryPhase cfg dc flags.gvr ++ watchPhase dc g ++ tl ++
        subscriberPhase dc g := by
    rcases htl with rfl | rfl | rfl <;> rcases hev with rfl | rfl <;>
      simp [processEvents, htr, configPhase, factoryPhase, watchPhase, goroutines,
        startWatching_eq, subscriberPhase]
  refine ⟨⟨⟨⟨⟨dc, 0, v1.NamespaceAll, none⟩, g⟩⟩, ?_⟩, ?_, ?_, ?_, ?_, ?_, ?_, ?_⟩
  · rw [htr]
    rcases htl with rfl | rfl | rfl <;> rcases hev with rfl | rfl <;> rfl
  · rw [htr]
    rcases htl with rfl | rfl | rfl <;> rcases hev with rfl | rfl <;> rfl
  · rw [hp]
    rcases htl with rfl | rfl | rfl <;> rcases hev with rfl | rfl <;> rfl
  · rw [hp]
    rcases htl with rfl | rfl | rfl <;> rcases hev with rfl | rfl <;>
      simp [closes, configPhase, factoryPhase, watchPhase, subscriberPhase]
  · intro hs
    have hm := main_waiting env flags [ev] cfg dc g gr hbc hc hg hs
    have hpe : processEvents env flags =
        configPhase [ev] ++ factoryPhase cfg dc flags.gvr ++ watchPhase dc g ++
          subscriberPhase dc g := by
      rcases hev with rfl | rfl <;>
        simp [processEvents, hm, configPhase, factoryPhase, watchPhase, goroutines,
          startWatching_eq, subscriberPhase]
    rw [hpe, hm]
    exact ⟨by rcases hev with rfl | rfl <;> rfl, rfl⟩
  · intro rest hs hk
    have he : Signal.Kill ∉ env.early := by
      intro h
      apply hk
      simp only [Env.early, hs, List.tail_cons] at h
      exact List.mem_of_mem_take h
    have hl : Signal.Kill ∉ env.late := by
      intro h
      apply hk
      simp only [Env.late, hs, List.tail_cons] at h
      exact List.mem_of_mem_drop h
    have hm := main_stopped env flags [ev] cfg dc g gr rest hbc hc hg hs he hl
    have hpe : processEvents env flags =
        configPhase [ev] ++ factoryPhase cfg dc flags.gvr ++ watchPhase dc g ++
          [Event.recv ⟨1⟩ Signal.Interrupt, Event.close ⟨0⟩] ++ subscriberPhase dc g := by
      rcases hev with rfl | rfl <;>
        simp [processEvents, hm, configPhase, factoryPhase, watchPhase, goroutines,
          startWatching_eq, subscriberPhase]
    rw [hpe, hm]
    exact ⟨by rcases hev with rfl | rfl <;> rfl,
      ⟨configPhase [ev] ++ factoryPhase cfg dc flags.gvr ++ watchPhase dc g, rfl,
        by rcases hev with rfl | rfl <;> rfl⟩, rfl, rfl⟩
  · intro hk
    rcases hs : env.delivered with _ | ⟨sig, rest⟩
    · rw [hs] at hk
      cases hk
    · cases sig
      · rw [main_killed_first env flags [ev] cfg dc g gr rest hbc hc hg hs]
        exact ⟨rfl, rfl⟩
      · by_cases he : Signal.Kill ∈ env.early
        · rw [main_killed_early env flags [ev] cfg dc g gr rest hbc hc hg hs he]
          exact ⟨rfl, rfl⟩
        · have hl : Signal.Kill ∈ env.late := by
            rw [hs] at hk
            have hr : Signal.Kill ∈ rest := by
              rcases List.mem_cons.mp hk with h | h
              · cases h
              · exact h
            rw [← List.take_append_drop env.beforeClose rest] at hr
            rcases List.mem_append.mp hr with h | h
            · exact absurd (by simpa [Env.early, hs] using h) he
            · simpa [Env.late, hs] using h
          rw [main_killed_late env flags [ev] cfg dc g gr rest hbc hc hg hs he hl]
          exact ⟨rfl, rfl⟩
  · intro rest hs
    have hm := main_killed_first env flags [ev] cfg dc g gr rest hbc hc hg hs
    have hpe : processEvents env flags =
        configPhase [ev] ++ factoryPhase cfg dc flags.gvr ++ watchPhase dc g ++
          subscriberPhase dc g := by
      rcases hev with rfl | rfl <;>
        simp [processEvents, hm, configPhase, factoryPhase, watchPhase, goroutines,
          startWatching_eq, subscriberPhase]
    rw [hpe]
    rcases hev with rfl | rfl <;> rfl

/-- Witness of C7: inside a cluster, with `-gvr=deployments.v1.apps`, three
interrupts make `main` close the stop channel once and return, while the run
loop of the informer has not returned. -/
theorem main_closes_stop_channel_once_witness :
    (sampleEnv true "" [Signal.Interrupt, Signal.Interrupt, Signal.Interrupt]).Run
        ⟨⟨⟨some ⟨7⟩, 0, "", none⟩, ⟨"apps", "v1", "deployments"⟩⟩⟩ ⟨0⟩ = Outcome.blocked ∧
    closes (processEvents
      (sampleEnv true "" [Signal.Interrupt, Signal.Interrupt, Signal.Interrupt])
      ⟨"", "deployments.v1.apps"⟩) = [⟨0⟩] ∧
    exitStatus (main (sampleEnv true "" [Signal.Interrupt, Signal.Interrupt, Signal.Interrupt])
      ⟨"", "deployments.v1.apps"⟩).outcome = some 0 :=
  have h := (main_closes_stop_channel_once
    (sampleEnv true "" [Signal.Interrupt, Signal.Interrupt, Signal.Interrupt])
    ⟨"", "deployments.v1.apps"⟩ (some ⟨"https://kubernetes.default.svc"⟩) (some ⟨7⟩)
    ⟨"apps", "v1", "deployments"⟩ ⟨"v1.apps", "deployments"⟩
    (by decide) (by decide) (by decide)).2.2.2.2.2.1
      [Signal.Interrupt, Signal.Interrupt] rfl (by decide)
  ⟨rfl, h.1, h.2.2.2⟩

/-- C7 (counterexample): inside a cluster, with `-gvr=deployments.v1.apps`,
setup completes and a sequence of one delivered signal, a kill, ends the
process with status 137: `main` does not return and the stop channel is never
closed.  The sequence interrupt, kill, interrupt also ends with status 137
instead of 0. -/
theorem main_kill_signal_not_relayed :
    (buildConfig (sampleEnv true "" [Signal.Kill]) "").outcome =
      Outcome.ret (some ⟨"https://kubernetes.default.svc"⟩, none) ∧
    (sampleEnv true "" [Signal.Kill]).NewForConfig (some ⟨"https://kubernetes.default.svc"⟩) =
      (some ⟨7⟩, none) ∧
    ((sampleEnv true "" [Signal.Kill]).ParseResourceArg "deployments.v1.apps").1 =
      some ⟨"apps", "v1", "deployments"⟩ ∧
    (sampleEnv true "" [Signal.Kill]).delivered ≠ [] ∧
    closes (processEvents (sampleEnv true "" [Signal.Kill]) ⟨"", "deployments.v1.apps"⟩) = [] ∧
    (main (sampleEnv true "" [Signal.Kill]) ⟨"", "deployments.v1.apps"⟩).outcome ≠
      Outcome.ret () ∧
    exitStatus (main (sampleEnv true "" [Signal.Kill]) ⟨"", "deployments.v1.apps"⟩).outcome =
      some 137 ∧
    exitStatus (main (sampleEnv true "" [Signal.Interrupt, Signal.Kill, Signal.Interrupt])
      ⟨"", "deployments.v1.apps"⟩).outcome = some 137 := by
  refine ⟨by decide, by decide, by decide, by decide, by decide, by decide, by decide,
    by decide⟩

/-- C1 (counterexample): for the non-empty path `/home/dev/.kube/empty.yaml`,
in two worlds that differ only in whether the process runs inside a cluster,
`buildConfig` returns the in-cluster config in one and an error in the other:
in-cluster discovery, consulted by the loader, decides the result. -/
theorem buildConfig_path_result_depends_on_cluster :
    "/home/dev/.kube/empty.yaml" ≠ "" ∧
    (buildConfig (emptyFileEnv true) "/home/dev/.kube/empty.yaml").outcome =
      Outcome.ret (some ⟨"https://kubernetes.default.svc"⟩, none) ∧
    (buildConfig (emptyFileEnv false) "/home/dev/.kube/empty.yaml").outcome =
      Outcome.ret (none, some ⟨"invalid configuration: no configuration has been provided"⟩) ∧
    (emptyFileEnv true).InClusterConfig ≠ (emptyFileEnv false).InClusterConfig ∧
    (buildConfig (emptyFileEnv true) "/home/dev/.kube/empty.yaml").outcome ≠
      (buildConfig (emptyFileEnv false) "/home/dev/.kube/empty.yaml").outcome := by
  refine ⟨by decide, by decide, by decide, by decide, by decide⟩

end DynamicListWatch
